import Mathlib

/-!
Verification development for the `simple_model_viewer` repository
(`src/main.cpp`).  The C++ source is shallowly embedded: floats are
modelled as rationals (the pipeline only copies attribute values, it never
computes with them), GL handle allocation is modelled by a counter, the
image decoder (stb_image) and the filesystem are modelled by an explicit
environment, and the global texture cache `g_loadedTexturesCache` is
threaded as explicit state.  A C++ exception escaping a function is
modelled by the `Except` error constructor carrying the state at the
throw point.
-/

/-- Mirrors `glm::vec3` / `aiVector3D` (components as exact rationals). -/
structure Vec3 where
  x : ℚ
  y : ℚ
  z : ℚ
  deriving DecidableEq, Repr

/-- Mirrors `aiColor4D` (only r, g, b are read by the code). -/
structure Color4 where
  r : ℚ
  g : ℚ
  b : ℚ
  a : ℚ
  deriving DecidableEq, Repr

/-- Mirrors `aiFace`: `mIndices` with `mNumIndices = indices.length`. -/
structure AiFace where
  indices : List Nat
  deriving DecidableEq, Repr

/-- Mirrors the parts of `aiMesh` read by `loadModel`: vertex arrays are
modelled as functions from the index, with the `Has*` flags mirroring
`HasNormals()`, `HasVertexColors(0)`, `HasTextureCoords(0)`. -/
structure AiMesh where
  numVertices : Nat
  mVertices : Nat → Vec3
  hasNormals : Bool
  mNormals : Nat → Vec3
  hasColors0 : Bool
  mColors0 : Nat → Color4
  hasUV0 : Bool
  mUV0 : Nat → Vec3
  faces : List AiFace
  materialIndex : Nat

/-- The default value of `loadModel`'s `defaultColor` parameter,
`glm::vec3(0.8f, 0.8f, 0.8f)` (src/main.cpp:638). -/
def loadModelDefaultColor : Vec3 := ⟨4/5, 4/5, 4/5⟩

/-- The 11 floats pushed for vertex `v` by the body of the vertex loop of
`loadModel` (src/main.cpp:663-706): position unconditionally, then
normal / color / UV with their documented fallbacks. -/
def vertexRecord (m : AiMesh) (defaultColor : Vec3) (v : Nat) : List ℚ :=
  [(m.mVertices v).x, (m.mVertices v).y, (m.mVertices v).z] ++
  (if m.hasNormals then
    [(m.mNormals v).x, (m.mNormals v).y, (m.mNormals v).z]
   else [0, 0, 0]) ++
  (if m.hasColors0 then
    [(m.mColors0 v).r, (m.mColors0 v).g, (m.mColors0 v).b]
   else [defaultColor.x, defaultColor.y, defaultColor.z]) ++
  (if m.hasUV0 then
    [(m.mUV0 v).x, (m.mUV0 v).y]
   else [0, 0])

/-- The vertex loop of `loadModel` run for vertices `0..n-1`, appending
each record to `vertexData` in source-vertex order. -/
def vertexLoop (m : AiMesh) (defaultColor : Vec3) : Nat → List ℚ
  | 0 => []
  | n + 1 => vertexLoop m defaultColor n ++ vertexRecord m defaultColor n

/-- The full normalized vertex buffer produced for one mesh. -/
def buildVertexData (m : AiMesh) (defaultColor : Vec3) : List ℚ :=
  vertexLoop m defaultColor m.numVertices

/-- The index loop of `loadModel` (src/main.cpp:709-714): for every face
in order, append its indices in per-face order. -/
def indexLoop : List AiFace → List Nat
  | [] => []
  | f :: fs => f.indices ++ indexLoop fs

/-- The full normalized index buffer produced for one mesh. -/
def buildIndices (m : AiMesh) : List Nat :=
  indexLoop m.faces

/-- Does the first list start with the second (mirrors
`std::string::rfind(pat, 0) == 0` and is also the kernel of substring
search)? -/
def startsWithList : List Char → List Char → Bool
  | _, [] => true
  | [], _ :: _ => false
  | a :: as, b :: bs => a == b && startsWithList as bs

/-- Substring containment on character lists (mirrors
`std::string::find(pat) != npos`). -/
def containsList : List Char → List Char → Bool
  | [], pat => startsWithList [] pat
  | a :: rest, pat => startsWithList (a :: rest) pat || containsList rest pat

/-- `s.rfind(pre, 0) == 0` on strings. -/
def strStarts (s pre : String) : Bool :=
  startsWithList s.toList pre.toList

/-- `s.find(pat) != std::string::npos` on strings. -/
def strContains (s pat : String) : Bool :=
  containsList s.toList pat.toList

/-- `s[0]` on a `std::string`; reading index `size()` yields the null
character (well-defined since C++11). -/
def strHead (s : String) : Char :=
  s.toList.headD (Char.ofNat 0)

/-- Value of a maximal leading run of decimal digits, accumulator style. -/
def digitsVal : List Char → Nat → Nat
  | [], acc => acc
  | c :: cs, acc => if c.isDigit then digitsVal cs (acc * 10 + (c.toNat - 48)) else acc

/-- Model of `std::stoi`: skip leading spaces, optional sign, then at
least one decimal digit (further non-digits are ignored).  `none` models
the exception paths (`std::invalid_argument` when no digits can be
consumed, `std::out_of_range` when the value exceeds `int`). -/
def stoiOpt (cs : List Char) : Option Int :=
  let trimmed := cs.dropWhile (fun c => c == ' ')
  match trimmed with
  | '-' :: rest =>
    match rest with
    | c :: _ =>
      if c.isDigit then
        let v : Int := -(digitsVal rest 0 : Int)
        if v < -2147483648 then none else some v
      else none
    | [] => none
  | '+' :: rest =>
    match rest with
    | c :: _ =>
      if c.isDigit then
        let v : Int := (digitsVal rest 0 : Int)
        if 2147483647 < v then none else some v
      else none
    | [] => none
  | c :: _ =>
    if c.isDigit then
      let v : Int := (digitsVal trimmed 0 : Int)
      if 2147483647 < v then none else some v
    else none
  | [] => none

/-- Mirrors `TextureInfo` (src/main.cpp:111-116). -/
structure TextureInfo where
  id : Nat := 0
  type : String := ""
  path : String := ""
  deriving DecidableEq, Repr

/-- Result of an `stbi_load` / `stbi_load_from_memory` call: dimensions
and channel count of the decoded image. -/
structure StbImage where
  width : Nat
  height : Nat
  nrComponents : Nat
  deriving DecidableEq, Repr

/-- Mirrors the parts of `aiTexture` read by `LoadTexture`; `blobId`
identifies the `pcData` payload for the decode environment. -/
structure AiTexture where
  mWidth : Nat
  mHeight : Nat
  blobId : Nat
  deriving DecidableEq, Repr

/-- Mirrors the two texture slot families of `aiMaterial` consulted by
`loadMaterialTextures`: `GetTexture(aiTextureType_BASE_COLOR, i)` and
`GetTexture(aiTextureType_DIFFUSE, i)` token strings, in slot order. -/
structure AiMaterial where
  baseColorSlots : List String
  diffuseSlots : List String
  deriving DecidableEq, Repr

/-- Mirrors the parts of `aiScene` read by the loader. -/
structure AiScene where
  textures : List AiTexture
  meshes : List AiMesh
  materials : Nat → AiMaterial
  flagsIncomplete : Bool
  hasRootNode : Bool

/-- The decode environment: what the filesystem and the embedded blobs
decode to.  Fixed for a session, so repeated decodes of the same input
give the same answer. -/
structure TexEnv where
  stbiLoadFile : String → Option StbImage
  stbiLoadMemory : Nat → Option StbImage

/-- The process-wide GL-side state threaded through the pipeline:
`g_loadedTexturesCache`, a handle allocator for `glGenTextures`, decode
and upload instrumentation counters, and a handle allocator for
`glGenVertexArrays`/`glGenBuffers`. -/
structure GlState where
  cache : List TextureInfo
  nextTexId : Nat
  decodeCount : Nat
  uploadCount : Nat
  nextBufId : Nat
  deriving DecidableEq, Repr

/-- Process start: empty cache, GL handles allocated from 1. -/
def glInit : GlState := ⟨[], 1, 0, 0, 1⟩

/-- The `resolvedCacheKey` computation for non-embedded tokens
(src/main.cpp:447-455): prepend the model directory unless the token
carries a scheme/drive marker or starts with a slash. -/
def resolveExternalKey (token modelDirectory : String) : String :=
  if !strContains token ":/" && !strContains token ":\\" && strHead token != '/' then
    modelDirectory ++ "/" ++ token
  else token

/-- The `resolvedCacheKey` for any token (src/main.cpp:440-455). -/
def computeCacheKey (token modelDirectory modelFilePath : String) : String :=
  if strStarts token "*" then modelFilePath ++ token
  else resolveExternalKey token modelDirectory

/-- The decode stage of `LoadTexture` (src/main.cpp:476-518): produces
the image (or `none` on decode failure) and counts stb decode calls.
`Except.error` models the uncaught `std::stoi` exception on an embedded
token with no parseable index. -/
def decodeTexture (env : TexEnv) (isEmbedded : Bool) (token cacheKey : String)
    (scene : Option AiScene) (s : GlState) : Except GlState (Option StbImage × GlState) :=
  if isEmbedded then
    match stoiOpt (token.toList.drop 1) with
    | none => .error s
    | some idx =>
      match scene with
      | none => .ok (none, s)
      | some sc =>
        match (if 0 ≤ idx then sc.textures.get? idx.toNat else none) with
        | none => .ok (none, s)
        | some t =>
          if t.mHeight = 0 then
            .ok (env.stbiLoadMemory t.blobId, { s with decodeCount := s.decodeCount + 1 })
          else
            .ok (some ⟨t.mWidth, t.mHeight, 4⟩, s)
  else
    .ok (env.stbiLoadFile cacheKey, { s with decodeCount := s.decodeCount + 1 })

/-- The upload stage of `LoadTexture` (src/main.cpp:520-566): supported
channel counts are uploaded and recorded in the cache, anything else is
the failure sentinel `0`. -/
def uploadTexture (img : StbImage) (textureID : Nat) (cacheKey : String) (s : GlState) :
    Nat × GlState :=
  if img.nrComponents = 1 ∨ img.nrComponents = 3 ∨ img.nrComponents = 4 then
    (textureID,
      { s with cache := s.cache ++ [{ id := textureID, type := "", path := cacheKey }],
               uploadCount := s.uploadCount + 1 })
  else
    (0, s)

/-- `LoadTexture` (src/main.cpp:431-573): compute the cache key, short
circuit on a cache hit, otherwise allocate a texture handle, decode and
upload.  Failure returns the sentinel `0`; `Except.error` models an
exception escaping the function. -/
def LoadTexture (env : TexEnv) (token modelDirectory : String) (scene : Option AiScene)
    (modelFilePath : String) (s : GlState) : Except GlState (Nat × GlState) :=
  match s.cache.find?
      (fun e => e.path == computeCacheKey token modelDirectory modelFilePath) with
  | some e => .ok (e.id, s)
  | none =>
    match decodeTexture env (strStarts token "*") token
        (computeCacheKey token modelDirectory modelFilePath) scene
        { s with nextTexId := s.nextTexId + 1 } with
    | .error sErr => .error sErr
    | .ok (none, s₁) => .ok (0, s₁)
    | .ok (some img, s₁) =>
      .ok (uploadTexture img s.nextTexId
        (computeCacheKey token modelDirectory modelFilePath) s₁)

/-- Builds the `TextureInfo` pushed by `loadMaterialTextures` for a
successfully resolved slot: the canonical path is looked up in the cache
by handle (src/main.cpp:593-605). -/
def textureFromCache (textureId : Nat) (s : GlState) : TextureInfo :=
  { id := textureId, type := "texture_diffuse",
    path := ((s.cache.find? (fun e => e.id == textureId)).map TextureInfo.path).getD "" }

/-- One slot-family loop of `loadMaterialTextures` (src/main.cpp:586-607
and 612-632): resolve each token in order, silently dropping slots that
resolve to the sentinel `0`. -/
def loadTexturesPass (env : TexEnv) (modelDirectory : String) (scene : Option AiScene)
    (modelFilePath : String) : List String → GlState →
    Except GlState (List TextureInfo × GlState)
  | [], s => .ok ([], s)
  | t :: ts, s =>
    match LoadTexture env t modelDirectory scene modelFilePath s with
    | .error sErr => .error sErr
    | .ok (textureId, s₁) =>
      match loadTexturesPass env modelDirectory scene modelFilePath ts s₁ with
      | .error sErr => .error sErr
      | .ok (rest, s₂) =>
        .ok ((if textureId ≠ 0 then [textureFromCache textureId s₁] else []) ++ rest, s₂)

/-- `loadMaterialTextures` (src/main.cpp:576-635): try all base-color
slots first; if that pass produced an empty list, fall back to the
diffuse slots. -/
def loadMaterialTextures (env : TexEnv) (mat : AiMaterial) (modelDirectory : String)
    (scene : Option AiScene) (modelFilePath : String) (s : GlState) :
    Except GlState (List TextureInfo × GlState) :=
  match loadTexturesPass env modelDirectory scene modelFilePath mat.baseColorSlots s with
  | .error sErr => .error sErr
  | .ok (texs, s₁) =>
    if texs.isEmpty then
      loadTexturesPass env modelDirectory scene modelFilePath mat.diffuseSlots s₁
    else .ok (texs, s₁)

/-- Mirrors `Mesh` (src/main.cpp:118-258): GPU handles (0 = unallocated),
index count and texture list. -/
structure MeshE where
  VAO : Nat := 0
  VBO : Nat := 0
  EBO : Nat := 0
  indexCount : Nat := 0
  textures : List TextureInfo := []
  deriving DecidableEq, Repr

/-- The `Mesh` constructor (src/main.cpp:127-167): `indexCount` is set
unconditionally, but GL buffers are only generated when both buffers are
non-empty.  Handle generation is modelled by bumping `nextBufId`. -/
def mkMesh (vertexData : List ℚ) (indices : List Nat) (meshTextures : List TextureInfo)
    (s : GlState) : MeshE × GlState :=
  if indices.length = 0 ∨ vertexData.isEmpty then
    ({ indexCount := indices.length, textures := meshTextures }, s)
  else
    ({ VAO := s.nextBufId, VBO := s.nextBufId + 1, EBO := s.nextBufId + 2,
       indexCount := indices.length, textures := meshTextures },
     { s with nextBufId := s.nextBufId + 3 })

/-- GL commands issued by `Mesh::draw`, recorded as a trace. -/
inductive GlCmd where
  | activeTexture (unit : Nat)
  | bindTexture (texId : Nat)
  | useProgram
  | setHasDiffuse (b : Bool)
  | bindVertexArray (vao : Nat)
  | drawElements (count : Nat)
  deriving DecidableEq, Repr

/-- `Mesh::draw` (src/main.cpp:226-257) as the trace of GL commands it
issues: nothing at all when the VAO is unallocated or the index count is
zero; otherwise bind the first non-zero diffuse texture (if any), set
the flag uniform, and issue one `glDrawElements`. -/
def MeshE.draw (m : MeshE) : List GlCmd :=
  if m.VAO = 0 ∨ m.indexCount = 0 then []
  else
    (match m.textures.find? (fun t => t.type == "texture_diffuse" && t.id != 0) with
     | some t => [.activeTexture 0, .bindTexture t.id]
     | none => []) ++
    [.useProgram,
     .setHasDiffuse (m.textures.find? (fun t => t.type == "texture_diffuse" && t.id != 0)).isSome,
     .bindVertexArray m.VAO, .drawElements m.indexCount, .bindVertexArray 0]

/-- `Mesh::~Mesh` (src/main.cpp:170-179) as the list of GL handles it
deletes (EBO, then VBO, then VAO; zero handles are skipped). -/
def MeshE.destruct (m : MeshE) : List Nat :=
  (if m.EBO ≠ 0 then [m.EBO] else []) ++
  (if m.VBO ≠ 0 then [m.VBO] else []) ++
  (if m.VAO ≠ 0 then [m.VAO] else [])

/-- The `Mesh` move constructor (src/main.cpp:182-190): returns the
newly constructed mesh and the moved-from source, whose handles are
nulled (its texture vector is moved-from, modelled as emptied). -/
def moveCtor (other : MeshE) : MeshE × MeshE :=
  ({ VAO := other.VAO, VBO := other.VBO, EBO := other.EBO,
     indexCount := other.indexCount, textures := other.textures },
   { VAO := 0, VBO := 0, EBO := 0, indexCount := 0, textures := [] })

/-- The `Mesh` move assignment operator for distinct objects
(src/main.cpp:193-219; self-assignment is guarded to a no-op in the
source): returns the new destination, the nulled-out source, and the
list of handles the assignment itself released (the destination's old
buffers). -/
def moveAssign (dest other : MeshE) : MeshE × MeshE × List Nat :=
  ({ VAO := other.VAO, VBO := other.VBO, EBO := other.EBO,
     indexCount := other.indexCount, textures := other.textures },
   { VAO := 0, VBO := 0, EBO := 0, indexCount := 0, textures := [] },
   dest.destruct)

/-- The per-mesh body of the `loadModel` scene loop (src/main.cpp:654-725):
normalize the geometry, resolve its material's textures (the
`mMaterialIndex >= 0` test is on an unsigned value and always passes),
and construct the `Mesh`. -/
def processMesh (env : TexEnv) (sc : AiScene) (modelDirectory modelFilePath : String)
    (defaultColor : Vec3) (m : AiMesh) (s : GlState) : Except GlState (MeshE × GlState) :=
  match loadMaterialTextures env (sc.materials m.materialIndex) modelDirectory
      (some sc) modelFilePath s with
  | .error sErr => .error sErr
  | .ok (texs, s₁) => .ok (mkMesh (buildVertexData m defaultColor) (buildIndices m) texs s₁)

/-- The `loadModel` scene loop over all meshes, in scene index order. -/
def processMeshes (env : TexEnv) (sc : AiScene) (modelDirectory modelFilePath : String)
    (defaultColor : Vec3) : List AiMesh → GlState → Except GlState (List MeshE × GlState)
  | [], s => .ok ([], s)
  | m :: ms, s =>
    match processMesh env sc modelDirectory modelFilePath defaultColor m s with
    | .error sErr => .error sErr
    | .ok (mesh, s₁) =>
      match processMeshes env sc modelDirectory modelFilePath defaultColor ms s₁ with
      | .error sErr => .error sErr
      | .ok (rest, s₂) => .ok (mesh :: rest, s₂)

/-- `loadModel` (src/main.cpp:638-727).  The external importer is a
black box, so its result for the given path is passed in as
`importResult` (`none` models `ReadFile` returning no scene).  Import
failure — no scene, incomplete flags, or no root node — returns the
empty list with the state untouched. -/
def loadModel (env : TexEnv) (importResult : Option AiScene)
    (modelDirectory modelFilePath : String) (defaultColor : Vec3) (s : GlState) :
    Except GlState (List MeshE × GlState) :=
  match importResult with
  | none => .ok ([], s)
  | some sc =>
    if sc.flagsIncomplete || !sc.hasRootNode then .ok ([], s)
    else processMeshes env sc modelDirectory modelFilePath defaultColor sc.meshes s

/-- The dropped-file handling block of the render loop
(src/main.cpp:860-872): a non-empty load result replaces `meshes_main`;
an empty one clears it. -/
def processDroppedLoad (meshesMain newMeshes : List MeshE) : List MeshE :=
  if !newMeshes.isEmpty then newMeshes else []

/-- The pending-load globals `g_droppedModelPath` and
`g_newModelPathAvailable` (src/main.cpp:412-413). -/
structure DropState where
  droppedModelPath : String
  newModelPathAvailable : Bool
  deriving DecidableEq, Repr

/-- `drop_callback` (src/main.cpp:419-428): with at least one path,
store the first and raise the flag; otherwise leave the state alone. -/
def drop_callback (count : Nat) (paths : Nat → String) (st : DropState) : DropState :=
  if count > 0 then { droppedModelPath := paths 0, newModelPathAvailable := true }
  else st

/-! Concrete inputs used to evaluate the embedded code at specific
points. -/

/-- Environment in which every decode fails (missing files, corrupt
blobs). -/
def envNone : TexEnv := ⟨fun _ => none, fun _ => none⟩

/-- Environment in which only `dir/d.png` decodes (a 4x4 RGB image). -/
def envDonly : TexEnv :=
  ⟨fun p => if p == "dir/d.png" then some ⟨4, 4, 3⟩ else none, fun _ => none⟩

/-- Environment in which only `dir/bc.png` decodes (a 4x4 RGB image). -/
def envBConly : TexEnv :=
  ⟨fun p => if p == "dir/bc.png" then some ⟨4, 4, 3⟩ else none, fun _ => none⟩

/-- Environment in which only `dir/a.png` decodes (a 2x2 RGBA image). -/
def envAonly : TexEnv :=
  ⟨fun p => if p == "dir/a.png" then some ⟨2, 2, 4⟩ else none, fun _ => none⟩

/-- A material with one base-color slot and one legacy diffuse slot. -/
def matBCandD : AiMaterial := ⟨["bc.png"], ["d.png"]⟩

/-- The texture list of a resolver result (empty for the exception
outcome). -/
def texsOf : Except GlState (List TextureInfo × GlState) → List TextureInfo
  | .ok (l, _) => l
  | .error _ => []

/-- Did the embedded computation end in an escaped C++ exception? -/
def isError {α : Type} : Except GlState α → Bool
  | .error _ => true
  | .ok _ => false

/-- State after one failed decode of an external texture from `glInit`:
one texture handle consumed, one decode attempted, nothing cached. -/
def sOneFail : GlState := ⟨[], 2, 1, 0, 1⟩

/-- State after two failed decodes of the same external texture. -/
def sTwoFail : GlState := ⟨[], 3, 2, 0, 1⟩

/-- State after successfully loading `dir/a.png` from `glInit`. -/
def sAfterA : GlState := ⟨[⟨1, "", "dir/a.png"⟩], 2, 1, 1, 1⟩

/-- State after successfully loading `dir/bc.png` from `glInit`. -/
def sAfterBC : GlState := ⟨[⟨1, "", "dir/bc.png"⟩], 2, 1, 1, 1⟩

/-- The expected resolver output for a successful base-color slot. -/
def texBC : TextureInfo := ⟨1, "texture_diffuse", "dir/bc.png"⟩

/-- A small source mesh with two vertices, no optional attributes, and
one triangle. -/
def meshNoAttrs : AiMesh :=
  { numVertices := 2, mVertices := fun v => ⟨v, 0, 1⟩,
    hasNormals := false, mNormals := fun _ => ⟨0, 0, 0⟩,
    hasColors0 := false, mColors0 := fun _ => ⟨0, 0, 0, 0⟩,
    hasUV0 := false, mUV0 := fun _ => ⟨0, 0, 0⟩,
    faces := [⟨[0, 1, 1]⟩], materialIndex := 0 }

/-- A well-formed one-mesh scene with no textures. -/
def sceneOneMesh : AiScene :=
  { textures := [], meshes := [meshNoAttrs], materials := fun _ => ⟨[], []⟩,
    flagsIncomplete := false, hasRootNode := true }

/-- A well-formed scene whose material references the texture token
`"*"` (an embedded marker with nothing after it). -/
def sceneStar : AiScene :=
  { textures := [], meshes := [meshNoAttrs], materials := fun _ => ⟨["*"], []⟩,
    flagsIncomplete := false, hasRootNode := true }

/-- A scene flagged `AI_SCENE_FLAGS_INCOMPLETE` by the importer. -/
def sceneIncomplete : AiScene :=
  { textures := [], meshes := [], materials := fun _ => ⟨[], []⟩,
    flagsIncomplete := true, hasRootNode := true }

/-- The mesh list expected from loading `sceneOneMesh` at `glInit`. -/
def lOneMesh : List MeshE := [⟨1, 2, 3, 3, []⟩]

/-- The GL state expected after loading `sceneOneMesh` at `glInit`. -/
def sOneMesh : GlState := ⟨[], 1, 0, 0, 4⟩

/-- A previously displayed, GPU-allocated mesh. -/
def meshPrev : MeshE := ⟨1, 2, 3, 3, []⟩

/-! Helper lemmas. -/

theorem vertexRecord_length (m : AiMesh) (dc : Vec3) (v : Nat) :
    (vertexRecord m dc v).length = 11 := by
  cases hN : m.hasNormals <;> cases hC : m.hasColors0 <;> cases hU : m.hasUV0 <;>
    simp [vertexRecord, hN, hC, hU]

theorem vertexLoop_length (m : AiMesh) (dc : Vec3) (n : Nat) :
    (vertexLoop m dc n).length = 11 * n := by
  induction n with
  | zero => rfl
  | succ k ih => simp [vertexLoop, ih, vertexRecord_length]; ring

theorem vertexLoop_slice (m : AiMesh) (dc : Vec3) (n : Nat) :
    ∀ v, v < n → ((vertexLoop m dc n).drop (11 * v)).take 11 = vertexRecord m dc v := by
  induction n with
  | zero => intro v hv; omega
  | succ k ih =>
    intro v hv
    rcases Nat.lt_succ_iff_lt_or_eq.mp hv with hvk | rfl
    · have hle : 11 * v ≤ (vertexLoop m dc k).length := by
        rw [vertexLoop_length]; omega
      rw [vertexLoop, List.drop_append_of_le_length hle,
        List.take_append_of_le_length, ih v hvk]
      have : ((vertexLoop m dc k).drop (11 * v)).length = 11 * k - 11 * v := by
        simp [vertexLoop_length]
      omega
  -- the v = k case: the final record starts exactly at the end of the
  -- prefix built for the first k vertices
    · have hlen : (vertexLoop m dc v).length = 11 * v := vertexLoop_length m dc v
      rw [vertexLoop, ← hlen, List.drop_left,
        List.take_of_length_le (by rw [vertexRecord_length])]

theorem indexLoop_length_triples (fs : List AiFace)
    (h : ∀ f ∈ fs, f.indices.length = 3) : (indexLoop fs).length % 3 = 0 := by
  induction fs with
  | nil => rfl
  | cons f rest ih =>
    have hf : f.indices.length = 3 := h f (by simp)
    have hrest := ih (fun g hg => h g (by simp [hg]))
    simp [indexLoop, hf]
    omega

/-! Claim theorems. -/

/-- C5: for every source mesh with N vertices the normalized vertex
buffer holds exactly N records of 11 floats in source-vertex order (the
slice starting at 11v is exactly vertex v's record), and when every face
is a triangle — which the import stage guarantees via
`aiProcess_Triangulate` — the index buffer length is a multiple of 3. -/
theorem normalizer_sizes (m : AiMesh) (dc : Vec3)
    (hfaces : ∀ f ∈ m.faces, f.indices.length = 3) :
    (buildVertexData m dc).length = 11 * m.numVertices ∧
    (buildIndices m).length % 3 = 0 ∧
    (∀ v, v < m.numVertices →
      ((buildVertexData m dc).drop (11 * v)).take 11 = vertexRecord m dc v) :=
  ⟨vertexLoop_length m dc m.numVertices, indexLoop_length_triples m.faces hfaces,
    vertexLoop_slice m dc m.numVertices⟩

/-- C5 witness: the two-vertex one-triangle mesh evaluates as the
theorem states. -/
theorem normalizer_sizes_witness :
    (buildVertexData meshNoAttrs loadModelDefaultColor).length = 11 * meshNoAttrs.numVertices ∧
    (buildIndices meshNoAttrs).length % 3 = 0 ∧
    ((buildVertexData meshNoAttrs loadModelDefaultColor).drop (11 * 1)).take 11
      = vertexRecord meshNoAttrs loadModelDefaultColor 1 :=
  ⟨(normalizer_sizes meshNoAttrs loadModelDefaultColor (by decide)).1,
   (normalizer_sizes meshNoAttrs loadModelDefaultColor (by decide)).2.1,
   (normalizer_sizes meshNoAttrs loadModelDefaultColor (by decide)).2.2 1 (by decide)⟩

/-- C6: position is always emitted from the source; when the source
mesh lacks normals / a first color set / a first UV set, the
corresponding record fields are exactly (0,0,0) / the caller-supplied
`defaultColor` / (0,0); and `loadModel`'s default for that parameter is
(0.8, 0.8, 0.8). -/
theorem normalizer_fallbacks (m : AiMesh) (dc : Vec3) (v : Nat) :
    (vertexRecord m dc v).take 3
      = [(m.mVertices v).x, (m.mVertices v).y, (m.mVertices v).z] ∧
    (m.hasNormals = false → ((vertexRecord m dc v).drop 3).take 3 = [0, 0, 0]) ∧
    (m.hasColors0 = false → ((vertexRecord m dc v).drop 6).take 3 = [dc.x, dc.y, dc.z]) ∧
    (m.hasUV0 = false → (vertexRecord m dc v).drop 9 = [0, 0]) ∧
    loadModelDefaultColor = ⟨4/5, 4/5, 4/5⟩ := by
  cases hN : m.hasNormals <;> cases hC : m.hasColors0 <;> cases hU : m.hasUV0 <;>
    simp [vertexRecord, hN, hC, hU, loadModelDefaultColor]

/-- C6 witness: on the attribute-less mesh, vertex 0's record carries
the source position, zero normal, the default color and zero UV. -/
theorem normalizer_fallbacks_witness :
    (vertexRecord meshNoAttrs loadModelDefaultColor 0).take 3 = [0, 0, 1] ∧
    ((vertexRecord meshNoAttrs loadModelDefaultColor 0).drop 3).take 3 = [0, 0, 0] ∧
    ((vertexRecord meshNoAttrs loadModelDefaultColor 0).drop 6).take 3
      = [4/5, 4/5, 4/5] ∧
    (vertexRecord meshNoAttrs loadModelDefaultColor 0).drop 9 = [0, 0] := by
  refine ⟨?_, ?_, ?_, ?_⟩
  · have := (normalizer_fallbacks meshNoAttrs loadModelDefaultColor 0).1
    simpa [meshNoAttrs] using this
  · exact (normalizer_fallbacks meshNoAttrs loadModelDefaultColor 0).2.1 rfl
  · have := (normalizer_fallbacks meshNoAttrs loadModelDefaultColor 0).2.2.1 rfl
    simpa [loadModelDefaultColor] using this
  · exact (normalizer_fallbacks meshNoAttrs loadModelDefaultColor 0).2.2.2.1 rfl

/-- C7: a `Mesh` constructed from an empty vertex buffer or an empty
index buffer allocates no GPU handles (VAO, VBO, EBO stay 0, the handle
allocator is untouched) and its `draw` issues no GL command at all. -/
theorem mesh_empty_no_gpu (vd : List ℚ) (idx : List Nat) (txs : List TextureInfo)
    (s : GlState) (h : idx = [] ∨ vd = []) :
    (mkMesh vd idx txs s).1.VAO = 0 ∧ (mkMesh vd idx txs s).1.VBO = 0 ∧
    (mkMesh vd idx txs s).1.EBO = 0 ∧ (mkMesh vd idx txs s).2 = s ∧
    (mkMesh vd idx txs s).1.draw = [] := by
  have hcond : idx.length = 0 ∨ vd.isEmpty := by
    rcases h with h | h <;> simp [h]
  have hmk : mkMesh vd idx txs s = ({ indexCount := idx.length, textures := txs }, s) := by
    unfold mkMesh
    exact if_pos hcond
  rw [hmk]
  refine ⟨rfl, rfl, rfl, rfl, ?_⟩
  simp [MeshE.draw]

/-- C7 witness: an empty vertex buffer with a non-empty index list
produces a handle-free mesh whose draw trace is empty. -/
theorem mesh_empty_no_gpu_witness :
    (mkMesh [] [0, 1, 2] [] glInit).1.VAO = 0 ∧
    (mkMesh [] [0, 1, 2] [] glInit).1.VBO = 0 ∧
    (mkMesh [] [0, 1, 2] [] glInit).1.EBO = 0 ∧
    (mkMesh [] [0, 1, 2] [] glInit).2 = glInit ∧
    (mkMesh [] [0, 1, 2] [] glInit).1.draw = [] :=
  mesh_empty_no_gpu [] [0, 1, 2] [] glInit (Or.inr rfl)

/-- C8: move construction transfers the GPU handles and nulls the
source so its destructor releases nothing; destroying both objects
afterwards releases exactly the original handles once.  Move assignment
first releases the destination's own buffers, transfers the source's
handles and nulls the source; the handles released by the assignment
plus those released when both objects are later destroyed are exactly
the handles both objects owned before, each once. -/
theorem mesh_move_exclusive_release (m dest other : MeshE) :
    ((moveCtor m).1.VAO = m.VAO ∧ (moveCtor m).1.VBO = m.VBO ∧
      (moveCtor m).1.EBO = m.EBO) ∧
    (moveCtor m).2.destruct = [] ∧
    (moveCtor m).2.destruct ++ (moveCtor m).1.destruct = m.destruct ∧
    (moveAssign dest other).2.2 = dest.destruct ∧
    (moveAssign dest other).2.1.destruct = [] ∧
    ((moveAssign dest other).1.VAO = other.VAO ∧ (moveAssign dest other).1.VBO = other.VBO ∧
      (moveAssign dest other).1.EBO = other.EBO) ∧
    (moveAssign dest other).2.2 ++ (moveAssign dest other).2.1.destruct ++
      (moveAssign dest other).1.destruct = dest.destruct ++ other.destruct := by
  simp [moveCtor, moveAssign, MeshE.destruct]

/-- C10: a drop event delivering zero paths leaves the pending-load
state (stored path and new-model flag) unchanged, so no reload is
triggered. -/
theorem drop_callback_zero_noop (count : Nat) (paths : Nat → String) (st : DropState)
    (h : count = 0) : drop_callback count paths st = st := by
  simp [drop_callback, h]

/-- C10 witness: a zero-count drop on a concrete state is the
identity. -/
theorem drop_callback_zero_noop_witness :
    drop_callback 0 (fun _ => "") ⟨"prev.obj", false⟩ = ⟨"prev.obj", false⟩ :=
  drop_callback_zero_noop 0 (fun _ => "") ⟨"prev.obj", false⟩ rfl

theorem find?_append_none {α : Type} (p : α → Bool) (l₁ l₂ : List α)
    (h : l₁.find? p = none) : (l₁ ++ l₂).find? p = l₂.find? p := by
  rw [List.find?_append, h, Option.none_or]

theorem uploadTexture_cases (img : StbImage) (tid : Nat) (key : String) (s : GlState) :
    uploadTexture img tid key s
        = (tid, { s with cache := s.cache ++ [⟨tid, "", key⟩],
                         uploadCount := s.uploadCount + 1 }) ∨
    uploadTexture img tid key s = (0, s) := by
  unfold uploadTexture
  by_cases hch : img.nrComponents = 1 ∨ img.nrComponents = 3 ∨ img.nrComponents = 4
  · left
    exact if_pos hch
  · right
    exact if_neg hch

theorem decodeTexture_ok_state (env : TexEnv) (e : Bool) (token cacheKey : String)
    (scene : Option AiScene) (s : GlState) (r : Option StbImage) (s' : GlState)
    (h : decodeTexture env e token cacheKey scene s = .ok (r, s')) :
    s'.cache = s.cache ∧ s'.nextTexId = s.nextTexId := by
  cases e with
  | false =>
    simp only [decodeTexture, Bool.false_eq_true, if_false, Except.ok.injEq,
      Prod.mk.injEq] at h
    obtain ⟨-, rfl⟩ := h
    exact ⟨rfl, rfl⟩
  | true =>
    cases hstoi : stoiOpt (token.toList.drop 1) with
    | none =>
      simp only [decodeTexture, eq_self_iff_true, if_true, hstoi] at h
      exact absurd h (by simp)
    | some idx =>
      cases scene with
      | none =>
        simp only [decodeTexture, eq_self_iff_true, if_true, hstoi, Except.ok.injEq,
          Prod.mk.injEq] at h
        obtain ⟨-, rfl⟩ := h
        exact ⟨rfl, rfl⟩
      | some sc =>
        cases hget : (if 0 ≤ idx then sc.textures.get? idx.toNat else none) with
        | none =>
          simp only [decodeTexture, eq_self_iff_true, if_true, hstoi, hget,
            Except.ok.injEq, Prod.mk.injEq] at h
          obtain ⟨-, rfl⟩ := h
          exact ⟨rfl, rfl⟩
        | some t =>
          by_cases hh : t.mHeight = 0
          · simp only [decodeTexture, eq_self_iff_true, if_true, hstoi, hget, hh,
              Except.ok.injEq, Prod.mk.injEq] at h
            obtain ⟨-, rfl⟩ := h
            exact ⟨rfl, rfl⟩
          · simp only [decodeTexture, eq_self_iff_true, if_true, hstoi, hget,
              if_neg hh, Except.ok.injEq, Prod.mk.injEq] at h
            obtain ⟨-, rfl⟩ := h
            exact ⟨rfl, rfl⟩

/-- C3 (amended): once a `resolvedCacheKey` has resolved to a non-zero
handle, resolving it again returns the identical handle with the
registry state completely unchanged (so no second decode and no second
upload); and the registry keeps at most one entry — hence at most one
GPU handle — per key. -/
theorem textureRegistry_idempotent (env : TexEnv) (token modelDirectory : String)
    (scene : Option AiScene) (modelFilePath : String) (s : GlState) (texId : Nat)
    (s₁ : GlState)
    (h : LoadTexture env token modelDirectory scene modelFilePath s = .ok (texId, s₁)) :
    (texId ≠ 0 →
      LoadTexture env token modelDirectory scene modelFilePath s₁ = .ok (texId, s₁)) ∧
    (s.cache.Pairwise (fun a b => a.path ≠ b.path) →
      s₁.cache.Pairwise (fun a b => a.path ≠ b.path)) := by
  unfold LoadTexture at h
  cases hf : s.cache.find?
      (fun e => e.path == computeCacheKey token modelDirectory modelFilePath) with
  | some e =>
    simp only [hf] at h
    simp only [Except.ok.injEq, Prod.mk.injEq] at h
    obtain ⟨rfl, rfl⟩ := h
    exact ⟨fun _ => by unfold LoadTexture; rw [hf], fun hp => hp⟩
  | none =>
    simp only [hf] at h
    cases hd : decodeTexture env (strStarts token "*") token
        (computeCacheKey token modelDirectory modelFilePath) scene
        { s with nextTexId := s.nextTexId + 1 } with
    | error sErr =>
      simp only [hd] at h
      exact absurd h (by simp)
    | ok pr =>
      obtain ⟨oimg, s'⟩ := pr
      have hst := decodeTexture_ok_state env (strStarts token "*") token
        (computeCacheKey token modelDirectory modelFilePath) scene
        { s with nextTexId := s.nextTexId + 1 } oimg s' hd
      cases oimg with
      | none =>
        simp only [hd] at h
        simp only [Except.ok.injEq, Prod.mk.injEq] at h
        obtain ⟨rfl, rfl⟩ := h
        refine ⟨fun hne => absurd rfl hne, fun hp => ?_⟩
        rw [show s'.cache = s.cache from hst.1]
        exact hp
      | some img =>
        simp only [hd] at h
        have hcache : s'.cache = s.cache := hst.1
        rcases uploadTexture_cases img s.nextTexId
            (computeCacheKey token modelDirectory modelFilePath) s' with hup | hup
        · rw [hup] at h
          simp only [Except.ok.injEq, Prod.mk.injEq] at h
          obtain ⟨rfl, rfl⟩ := h
          constructor
          · intro _
            have hfind1 : List.find?
                (fun e => e.path == computeCacheKey token modelDirectory modelFilePath)
                (s'.cache ++
                  [({ id := s.nextTexId,
                      type := "",
                      path := computeCacheKey token modelDirectory modelFilePath } : TextureInfo)])
                = some { id := s.nextTexId,
                         type := "",
                         path := computeCacheKey token modelDirectory modelFilePath } := by
              rw [hcache, find?_append_none _ _ _ hf]
              simp [List.find?]
            unfold LoadTexture
            simp [hfind1]
          · intro hp
            simp only [List.pairwise_append, hcache]
            refine ⟨hp, List.pairwise_singleton _ _, ?_⟩
            intro a ha b hb
            have hnone := List.find?_eq_none.mp hf a ha
            simp only [beq_iff_eq] at hnone
            simp only [List.mem_singleton] at hb
            rw [hb]
            exact hnone
        · rw [hup] at h
          simp only [Except.ok.injEq, Prod.mk.injEq] at h
          obtain ⟨rfl, rfl⟩ := h
          refine ⟨fun hne => absurd rfl hne, fun hp => ?_⟩
          rw [hcache]
          exact hp

/-- C3 witness: after the first successful resolution of `dir/a.png`,
resolving it again returns handle 1 with the registry unchanged, and
the registry holds one entry per key. -/
theorem textureRegistry_idempotent_witness :
    LoadTexture envAonly "a.png" "dir" none "m.obj" sAfterA = .ok (1, sAfterA) ∧
    sAfterA.cache.Pairwise (fun a b => a.path ≠ b.path) :=
  ⟨(textureRegistry_idempotent envAonly "a.png" "dir" none "m.obj" glInit 1 sAfterA
      rfl).1 (by decide),
   (textureRegistry_idempotent envAonly "a.png" "dir" none "m.obj" glInit 1 sAfterA
      rfl).2 List.Pairwise.nil⟩

/-- C3 counterexample: a token whose decode fails is decoded again on
the second resolution of the same `resolvedCacheKey` — two decodes and
zero uploads, not "exactly one decode and upload". -/
theorem textureRegistry_two_decodes_cex :
    LoadTexture envNone "a.png" "dir" none "m.obj" glInit = .ok (0, sOneFail) ∧
    LoadTexture envNone "a.png" "dir" none "m.obj" sOneFail = .ok (0, sTwoFail) ∧
    glInit.decodeCount = 0 ∧ sTwoFail.decodeCount = 2 ∧ sTwoFail.uploadCount = 0 :=
  ⟨rfl, rfl, rfl, rfl, rfl⟩

/-- C1 (amended): when the base-color pass produces a non-empty texture
list, the Material Resolver returns exactly that list with that state —
the diffuse slots are never consulted. -/
theorem materialResolver_baseColor_suppresses_diffuse (env : TexEnv) (mat : AiMaterial)
    (modelDirectory : String) (scene : Option AiScene) (modelFilePath : String)
    (s : GlState) (texs : List TextureInfo) (s₁ : GlState)
    (h : loadTexturesPass env modelDirectory scene modelFilePath mat.baseColorSlots s
      = .ok (texs, s₁)) (hne : texs ≠ []) :
    loadMaterialTextures env mat modelDirectory scene modelFilePath s = .ok (texs, s₁) := by
  unfold loadMaterialTextures
  rw [h]
  have hempty : texs.isEmpty = false := by
    cases texs with
    | nil => exact absurd rfl hne
    | cons a l => rfl
  simp [hempty]

/-- C1 witness: a material with a base-color slot that resolves
successfully returns only that base-color texture, leaving the diffuse
slot untouched. -/
theorem materialResolver_baseColor_suppresses_diffuse_witness :
    loadMaterialTextures envBConly matBCandD "dir" none "m.obj" glInit
      = .ok ([texBC], sAfterBC) :=
  materialResolver_baseColor_suppresses_diffuse envBConly matBCandD "dir" none "m.obj"
    glInit [texBC] sAfterBC rfl (by decide)

/-- C1 counterexample: a material exposing both a base-color slot
(`bc.png`, which fails to decode) and a diffuse slot (`d.png`, which
decodes) makes the resolver return a diffuse-derived texture — the
diffuse slots are consulted although base-color slots exist. -/
theorem materialResolver_diffuse_consulted_cex :
    matBCandD.baseColorSlots = ["bc.png"] ∧
    texsOf (loadMaterialTextures envDonly matBCandD "dir" none "m.obj" glInit)
      = [⟨2, "texture_diffuse", "dir/d.png"⟩] ∧
    computeCacheKey "bc.png" "dir" "m.obj" = "dir/bc.png" ∧
    ("dir/d.png" : String) ≠ "dir/bc.png" :=
  ⟨rfl, rfl, rfl, by decide⟩

/-- C4: the claim that `loadModel` and `LoadTexture` always return
normally is violated by the code: for the texture token `"*"` (an
embedded marker with no parseable index) `std::stoi` throws, and the
exception escapes `LoadTexture` and `loadModel` — modelled here by the
`Except.error` outcome on a concrete scene whose material carries that
token. -/
theorem loadModel_exception_escapes :
    stoiOpt ("*".toList.drop 1) = none ∧
    isError (LoadTexture envNone "*" "dir" (some sceneStar) "m.glb" glInit) = true ∧
    isError (loadModel envNone (some sceneStar) "dir" "m.glb" loadModelDefaultColor
      glInit) = true :=
  ⟨rfl, rfl, rfl⟩

/-- C2 (amended): a failed import (no scene, incomplete scene, or no
root node) yields an empty mesh list from `loadModel`, and the dropped
file handler then clears the previously loaded model (showing the
error prompt) rather than retaining it. -/
theorem dropFailure_empty_and_cleared (env : TexEnv) (prev : List MeshE)
    (modelDirectory modelFilePath : String) (dc : Vec3) (s : GlState) (sc : AiScene)
    (hbad : sc.flagsIncomplete = true ∨ sc.hasRootNode = false) :
    loadModel env none modelDirectory modelFilePath dc s = .ok ([], s) ∧
    loadModel env (some sc) modelDirectory modelFilePath dc s = .ok ([], s) ∧
    processDroppedLoad prev [] = [] := by
  refine ⟨rfl, ?_, rfl⟩
  unfold loadModel
  rcases hbad with hb | hb <;> simp [hb]

/-- C2 witness: with a previously displayed mesh present, a null import
result yields the empty list and the handler clears the display list. -/
theorem dropFailure_empty_and_cleared_witness :
    loadModel envNone none "dir" "m.obj" loadModelDefaultColor glInit = .ok ([], glInit) ∧
    loadModel envNone (some sceneIncomplete) "dir" "m.obj" loadModelDefaultColor glInit
      = .ok ([], glInit) ∧
    processDroppedLoad [meshPrev] [] = [] :=
  dropFailure_empty_and_cleared envNone [meshPrev] "dir" "m.obj" loadModelDefaultColor
    glInit sceneIncomplete (Or.inl rfl)

/-- C2 counterexample: the previously loaded model's mesh list is NOT
left unchanged on a failed dropped-file import — the handler replaces
the non-empty previous list with the empty list. -/
theorem dropFailure_clears_previous_cex :
    loadModel envNone none "dir" "m.obj" loadModelDefaultColor glInit = .ok ([], glInit) ∧
    processDroppedLoad [meshPrev] [] = [] ∧
    ([] : List MeshE) ≠ [meshPrev] :=
  ⟨rfl, rfl, by decide⟩

theorem mkMesh_indexCount (vd : List ℚ) (idx : List Nat) (txs : List TextureInfo)
    (s : GlState) : (mkMesh vd idx txs s).1.indexCount = idx.length := by
  unfold mkMesh
  split <;> rfl

theorem processMesh_ok_indexCount (env : TexEnv) (sc : AiScene) (dir mfp : String)
    (dc : Vec3) (m : AiMesh) (s : GlState) (mesh : MeshE) (s₁ : GlState)
    (h : processMesh env sc dir mfp dc m s = .ok (mesh, s₁)) :
    mesh.indexCount = (buildIndices m).length := by
  unfold processMesh at h
  cases hlm : loadMaterialTextures env (sc.materials m.materialIndex) dir (some sc) mfp s with
  | error sErr => rw [hlm] at h; exact absurd h (by simp)
  | ok pr =>
    obtain ⟨texs, s'⟩ := pr
    rw [hlm] at h
    have h2 : mkMesh (buildVertexData m dc) (buildIndices m) texs s' = (mesh, s₁) := by
      simpa using h
    have h3 : (mkMesh (buildVertexData m dc) (buildIndices m) texs s').1 = mesh :=
      congrArg Prod.fst h2
    rw [← h3, mkMesh_indexCount]

theorem processMeshes_map (env : TexEnv) (sc : AiScene) (dir mfp : String) (dc : Vec3) :
    ∀ (ms : List AiMesh) (s : GlState) (l : List MeshE) (s' : GlState),
      processMeshes env sc dir mfp dc ms s = .ok (l, s') →
      l.map MeshE.indexCount = ms.map (fun m => (buildIndices m).length) := by
  intro ms
  induction ms with
  | nil =>
    intro s l s' h
    simp only [processMeshes, Except.ok.injEq, Prod.mk.injEq] at h
    obtain ⟨rfl, rfl⟩ := h
    rfl
  | cons m rest ih =>
    intro s l s' h
    unfold processMeshes at h
    cases hpm : processMesh env sc dir mfp dc m s with
    | error sErr => simp only [hpm] at h; exact absurd h (by simp)
    | ok pr =>
      obtain ⟨mesh, s₁⟩ := pr
      simp only [hpm] at h
      cases hrest : processMeshes env sc dir mfp dc rest s₁ with
      | error sErr => simp only [hrest] at h; exact absurd h (by simp)
      | ok pr2 =>
        obtain ⟨lrest, s₂⟩ := pr2
        simp only [hrest] at h
        simp only [Except.ok.injEq, Prod.mk.injEq] at h
        obtain ⟨h4, h5⟩ := h
        subst h4
        subst h5
        simp only [List.map_cons]
        rw [processMesh_ok_indexCount env sc dir mfp dc m s mesh s₁ hpm,
          ih s₁ lrest s₂ hrest]

/-- C9: a successfully imported scene produces a mesh list whose length
equals the scene's mesh count, aligned in scene index order (element i
carries exactly mesh i's normalized index count, so meshes that
normalized to empty buffers are present as inert placeholders). -/
theorem loadModel_mesh_count (env : TexEnv) (sc : AiScene)
    (modelDirectory modelFilePath : String) (dc : Vec3) (s : GlState)
    (l : List MeshE) (s' : GlState)
    (h1 : sc.flagsIncomplete = false) (h2 : sc.hasRootNode = true)
    (h : loadModel env (some sc) modelDirectory modelFilePath dc s = .ok (l, s')) :
    l.length = sc.meshes.length ∧
    l.map MeshE.indexCount = sc.meshes.map (fun m => (buildIndices m).length) := by
  unfold loadModel at h
  simp only [h1, h2, Bool.not_true, Bool.or_false, Bool.false_eq_true, if_false] at h
  have hmap := processMeshes_map env sc modelDirectory modelFilePath dc sc.meshes s l s' h
  refine ⟨?_, hmap⟩
  have hlen := congrArg List.length hmap
  simpa using hlen

/-- C9 witness: the one-mesh scene loads to a one-element list whose
index count matches the source mesh. -/
theorem loadModel_mesh_count_witness :
    lOneMesh.length = sceneOneMesh.meshes.length ∧
    lOneMesh.map MeshE.indexCount
      = sceneOneMesh.meshes.map (fun m => (buildIndices m).length) :=
  loadModel_mesh_count envNone sceneOneMesh "dir" "m.obj" loadModelDefaultColor glInit
    lOneMesh sOneMesh rfl rfl rfl

